import Mathlib

/-!
# Verification of the headless Wi-Fi provisioner (wpa_ctrl TDM backend)

Shallow embedding of the provisioner's core logic, translated from the
Rust sources:

* `src/src/backend/parsing.rs` — `unescape_wpa_ssid`, `parse_scan_results`,
  signal scaling;
* `src/src/backend/setup.rs` — `setup_and_scan` retry loop;
* `src/src/backend/commands.rs` — `start_ap` / `stop_ap` state handling and
  the `connect` polling loop;
* `src/src/web_server.rs` — the `/api/connect` fire-and-forget handler.

Strings are modelled as `List Char` (the Rust code works on `&str` /
byte slices); bytes are `Nat` values below 256; machine integers that
matter (`i16` signal levels) are `Int` with the parse-time range check
made explicit.  Real time inside the `connect` polling loop is modelled
discretely: commands are instantaneous and each loop iteration advances
time by exactly the 2-second sleep, so elapsed time at the top of
iteration `n` is `2*n` seconds.
-/

namespace Provisioner

/-- Byte value of a hex digit, from `hex_val` in `unescape_wpa_ssid`
(`parsing.rs`): `0-9`, `a-f`, `A-F`; anything else is `none`. -/
def hexVal (b : Nat) : Option Nat :=
  if 48 ≤ b ∧ b ≤ 57 then some (b - 48)
  else if 97 ≤ b ∧ b ≤ 102 then some (10 + b - 97)
  else if 65 ≤ b ∧ b ≤ 70 then some (10 + b - 65)
  else none

/-- The loop body of `unescape_wpa_ssid` (`parsing.rs` lines 6-67) over the
byte values of the input.  A backslash followed by `x`/`X` (byte 120/88) and
two valid hex digits becomes the single byte `16*H1 + H2` (the Rust
`(v1 << 4) | v2`, equal to addition because hex digits are below 16); a
malformed `\xHH` keeps only the backslash and re-processes from the `x`
(the recursive call on `rest`); `\\` collapses to one backslash; any other
`\c` keeps both bytes; a trailing backslash is kept.  The first argument is
recursion fuel: every step consumes at least one input byte, so fuel equal
to the input length suffices and the fuel-exhausted branch is unreachable
from `unescapeBytes` (`unescapeAux_fuel_eq` below). -/
def unescapeAux : Nat → List Nat → List Nat
  | 0, _ => []
  | _, [] => []
  | f+1, b :: rest =>
    if b = 92 then
      match rest with
      | [] => [92]
      | c :: rest2 =>
        if c = 120 ∨ c = 88 then
          match rest2 with
          | h1 :: h2 :: rest3 =>
            match hexVal h1, hexVal h2 with
            | some v1, some v2 => (16 * v1 + v2) :: unescapeAux f rest3
            | _, _ => 92 :: unescapeAux f rest
          | _ => 92 :: unescapeAux f rest
        else if c = 92 then
          92 :: unescapeAux f rest2
        else
          92 :: c :: unescapeAux f rest2
    else
      b :: unescapeAux f rest

/-- `unescape_wpa_ssid`: run the unescape loop with enough fuel. -/
def unescapeBytes (l : List Nat) : List Nat := unescapeAux l.length l

/-- UTF-8 encoding of one Unicode code point (the byte sequence Rust's
`str::as_bytes` exposes for one `char`). -/
def encodeChar (c : Nat) : List Nat :=
  if c < 0x80 then [c]
  else if c < 0x800 then [0xC0 + c / 64, 0x80 + c % 64]
  else if c < 0x10000 then [0xE0 + c / 4096, 0x80 + (c / 64) % 64, 0x80 + c % 64]
  else [0xF0 + c / 262144, 0x80 + (c / 4096) % 64, 0x80 + (c / 64) % 64, 0x80 + c % 64]

/-- The UTF-8 bytes of a character list (Rust `str::as_bytes`). -/
def strBytes (s : List Char) : List Nat :=
  s.flatMap (fun c => encodeChar c.toNat)

/-- UTF-8 decoding with lossy replacement, modelling Rust's
`String::from_utf8_lossy`: well-formed sequences decode to their code point,
ill-formed bytes become U+FFFD (0xFFFD), replacing the maximal valid prefix
of a sequence and resuming at the first offending byte.  The first argument
is recursion fuel: every step consumes at least one input byte, so fuel
equal to the input length suffices and the fuel-exhausted branch is
unreachable from `utf8Decode` (`utf8Aux_fuel_eq` below). -/
def utf8Aux : Nat → List Nat → List Nat
  | 0, _ => []
  | _, [] => []
  | f+1, b :: rest =>
    if b ≤ 0x7F then b :: utf8Aux f rest
    else if 0xC2 ≤ b ∧ b ≤ 0xDF then
      match rest with
      | [] => [0xFFFD]
      | b2 :: rest2 =>
        if 0x80 ≤ b2 ∧ b2 ≤ 0xBF then
          ((b - 0xC0) * 64 + (b2 - 0x80)) :: utf8Aux f rest2
        else 0xFFFD :: utf8Aux f rest
    else if 0xE0 ≤ b ∧ b ≤ 0xEF then
      match rest with
      | [] => [0xFFFD]
      | b2 :: rest2 =>
        if (if b = 0xE0 then 0xA0 ≤ b2 ∧ b2 ≤ 0xBF
            else if b = 0xED then 0x80 ≤ b2 ∧ b2 ≤ 0x9F
            else 0x80 ≤ b2 ∧ b2 ≤ 0xBF) then
          match rest2 with
          | [] => [0xFFFD]
          | b3 :: rest3 =>
            if 0x80 ≤ b3 ∧ b3 ≤ 0xBF then
              ((b - 0xE0) * 4096 + (b2 - 0x80) * 64 + (b3 - 0x80)) :: utf8Aux f rest3
            else 0xFFFD :: utf8Aux f rest2
        else 0xFFFD :: utf8Aux f rest
    else if 0xF0 ≤ b ∧ b ≤ 0xF4 then
      match rest with
      | [] => [0xFFFD]
      | b2 :: rest2 =>
        if (if b = 0xF0 then 0x90 ≤ b2 ∧ b2 ≤ 0xBF
            else if b = 0xF4 then 0x80 ≤ b2 ∧ b2 ≤ 0x8F
            else 0x80 ≤ b2 ∧ b2 ≤ 0xBF) then
          match rest2 with
          | [] => [0xFFFD]
          | b3 :: rest3 =>
            if 0x80 ≤ b3 ∧ b3 ≤ 0xBF then
              match rest3 with
              | [] => [0xFFFD]
              | b4 :: rest4 =>
                if 0x80 ≤ b4 ∧ b4 ≤ 0xBF then
                  ((b - 0xF0) * 262144 + (b2 - 0x80) * 4096 + (b3 - 0x80) * 64 + (b4 - 0x80))
                    :: utf8Aux f rest4
                else 0xFFFD :: utf8Aux f rest3
            else 0xFFFD :: utf8Aux f rest2
        else 0xFFFD :: utf8Aux f rest
    else 0xFFFD :: utf8Aux f rest

/-- `String::from_utf8_lossy`: run the decoder with enough fuel. -/
def utf8Decode (l : List Nat) : List Nat := utf8Aux l.length l

/-- Split a character list on a single separator character; models Rust's
`str::split(c)` (and the per-separator behaviour of `str::lines`):
`""` yields `[[]]`, separators at the ends yield empty segments. -/
def splitListOn (sep : Char) : List Char → List (List Char)
  | [] => [[]]
  | c :: t =>
    let r := splitListOn sep t
    if c = sep then [] :: r
    else
      match r with
      | h :: t2 => (c :: h) :: t2
      | [] => [[c]]

/-- Strip one trailing carriage return, as Rust's `str::lines` does on each
line split at `\n`. -/
def stripCr (l : List Char) : List Char :=
  if l.getLast? = some '\r' then l.dropLast else l

/-- Rust's `str::lines`: split on `'\n'`, drop the final empty segment
produced by a trailing newline, strip one trailing `'\r'` per line. -/
def rustLines (s : List Char) : List (List Char) :=
  let parts := splitListOn '\n' s
  let parts := if parts.getLast? = some [] then parts.dropLast else parts
  parts.map stripCr

/-- Rust's `str::split_once('=')`: the part before the first `'='` and
everything after it, or `none` when there is no `'='`. -/
def splitOnceEq : List Char → Option (List Char × List Char)
  | [] => none
  | c :: t =>
    if c = '=' then some ([], t)
    else
      match splitOnceEq t with
      | some (a, b) => some (c :: a, b)
      | none => none

/-- Rust's `str::contains(pat)` for a literal pattern, over character lists. -/
def hasSub : List Char → List Char → Bool
  | [], pat => pat.isEmpty
  | c :: t, pat => pat.isPrefixOf (c :: t) || hasSub t pat

/-- Accumulate the value of a digit run; `none` as soon as a non-digit
appears.  Helper for `parseI16`. -/
def digitsValAux : List Char → Nat → Option Nat
  | [], acc => some acc
  | c :: t, acc =>
    if '0' ≤ c ∧ c ≤ '9' then digitsValAux t (acc * 10 + (c.toNat - 48))
    else none

/-- Value of a non-empty all-digit run, else `none`. -/
def digitsVal : List Char → Option Nat
  | [] => none
  | c :: t => digitsValAux (c :: t) 0

/-- Rust's `i16::from_str` (used as `parts[2].parse::<i16>()` in
`parse_scan_results`): optional `+`/`-` sign, one or more ASCII digits,
value within `[-32768, 32767]`; anything else fails. -/
def parseI16 (s : List Char) : Option Int :=
  let signAndDigits : Bool × List Char :=
    match s with
    | '-' :: t => (true, t)
    | '+' :: t => (false, t)
    | t => (false, t)
  match digitsVal signAndDigits.2 with
  | none => none
  | some n =>
    let v : Int := if signAndDigits.1 then -(n : Int) else (n : Int)
    if -32768 ≤ v ∧ v ≤ 32767 then some v else none

/-- Rust's `Ord::clamp`: `x.clamp(lo, hi) = min (max x lo) hi` (for `lo ≤ hi`). -/
def rustClamp (x lo hi : Int) : Int := min (max x lo) hi

/-- The signal mapping of `parse_scan_results` (`parsing.rs` line 153):
`((signal_dbm.clamp(-100, -50) + 100) * 2) as u8`; the cast is the identity
because the clamped value lands in `[0, 100]`. -/
def signal_percent (dbm : Int) : Int :=
  (rustClamp dbm (-100) (-50) + 100) * 2

/-- The `Network` scan-result record (`structs.rs`).  `ssid` is the list of
Unicode code points of the decoded SSID string; `signal` is the percent
value stored in the `u8` field; `security` is one of `"WPA2"`, `"WPA"`,
`"Open"`. -/
structure Network where
  ssid : List Nat
  signal : Int
  security : String
  deriving Repr, DecidableEq

/-- The security classification of `parse_scan_results`: flags containing
`WPA2` ⇒ `WPA2`, else containing `WPA` ⇒ `WPA`, else `Open`. -/
def securityOf (flags : List Char) : String :=
  if hasSub flags "WPA2".data then "WPA2"
  else if hasSub flags "WPA".data then "WPA"
  else "Open"

/-- One row of `parse_scan_results` after the tab split (`parsing.rs` lines
127-159): fewer than 5 fields ⇒ skipped; `signal_dbm` is the parsed `i16`
with `-100` on parse failure; the SSID field is unescaped, UTF-8
lossily decoded, and an empty decode discards the row. -/
def parseFields : List (List Char) → Option Network
  | _bssid :: _freq :: sig :: flags :: ssid :: _rest =>
    let signal_dbm : Int := (parseI16 sig).getD (-100)
    let ssid_cp := utf8Decode (unescapeBytes (strBytes ssid))
    if ssid_cp = [] then none
    else some ⟨ssid_cp, signal_percent signal_dbm, securityOf flags⟩
  | _ => none

/-- One line of `parse_scan_results`: split on tabs, then `parseFields`. -/
def parseRowL (line : List Char) : Option Network :=
  parseFields (splitListOn '\t' line)

/-- The accumulation loop of `parse_scan_results`: push each parsed row in
order, skipping rows that parse to `none`. -/
def scanFold : List (List Char) → List Network → List Network
  | [], acc => acc
  | line :: rest, acc =>
    match parseRowL line with
    | none => scanFold rest acc
    | some n => scanFold rest (acc ++ [n])

/-- `parse_scan_results` (`parsing.rs` lines 124-162): skip the header line,
fold the remaining lines, and always return `Ok`. -/
def parse_scan_results (output : String) : Except String (List Network) :=
  .ok (scanFold ((rustLines output.data).drop 1) [])

end Provisioner

deriving instance DecidableEq for Except

namespace Provisioner

/-! ## The `setup_and_scan` retry loop (`setup.rs` lines 107-154) -/

/-- Outcome of one `scan_internal` call: `Ok` with a (possibly empty)
network list, or an error (a `FAIL` reply or control-socket I/O error
propagated out of `send_cmd`/`parse_scan_results`). -/
inductive ScanRes
  | ok (nets : List Network)
  | err
  deriving Repr, DecidableEq

/-- The error cases `setup_and_scan` can produce: an error propagated from
`scan_internal` by the `?` operator, the `Failed to scan for networks after
3 attempts` error, or a propagated `start_ap` error. -/
inductive SetupErr
  | scanInternal
  | emptyAfterRetries
  | apStartFailed
  deriving Repr, DecidableEq

/-- Observable outcome of `setup_and_scan`: the returned value, how many
`scan_internal` calls were made, whether the empty-scan cleanup path called
`stop_ap` (setup.rs line 128), and whether `start_ap` was invoked
(setup.rs line 151). -/
structure SetupOut where
  result : Except SetupErr (List Network)
  attempts : Nat
  stoppedAp : Bool
  startedAp : Bool
  deriving Repr, DecidableEq

/-- The retry loop of `setup_and_scan`, parametrised by the outcome of each
`scan_internal` attempt (`scans i` is the result of attempt `i`, 0-based)
and by the outcome of the final `start_ap` call.  `rc` is the source's
`retry_count`, starting at 0 with `max_retries = 3`.  An `Err` from
`scan_internal` is propagated immediately by `?`; an empty list bumps
`retry_count` and, once `retry_count >= 3`, calls `stop_ap` and fails; a
non-empty list breaks out and `start_ap` runs.  The first argument is
recursion fuel: the loop body runs at most 3 times (`rc = 0, 1, 2`), so
fuel 3 suffices and the fuel-exhausted branch is unreachable from
`setup_and_scan` (`setupLoopAux_fuel_eq` below). -/
def setupLoopAux (scans : Nat → ScanRes) (apRes : Except Unit Unit) :
    Nat → Nat → SetupOut
  | 0, rc => ⟨.error .emptyAfterRetries, rc, true, false⟩
  | f+1, rc =>
    match scans rc with
    | .err => ⟨.error .scanInternal, rc + 1, false, false⟩
    | .ok [] =>
      if rc + 1 ≥ 3 then ⟨.error .emptyAfterRetries, rc + 1, true, false⟩
      else setupLoopAux scans apRes f (rc + 1)
    | .ok (n :: rest) =>
      match apRes with
      | .ok _ => ⟨.ok (n :: rest), rc + 1, false, true⟩
      | .error _ => ⟨.error .apStartFailed, rc + 1, false, true⟩

/-- `setup_and_scan` (`setup.rs` lines 107-154): the retry loop from
`retry_count = 0`. -/
def setup_and_scan (scans : Nat → ScanRes) (apRes : Except Unit Unit) : SetupOut :=
  setupLoopAux scans apRes 3 0

/-! ## The `connect` polling loop (`commands.rs` lines 284-388) and the
`/api/connect` handler (`web_server.rs` lines 73-110)

Discrete-time model: commands are instantaneous; the only time that passes
inside the loop is the 2-second sleep at the top of each iteration, so at
the top of iteration `n` the elapsed time is `2*n` seconds and the `STATUS`
poll of iteration `n` happens at `2*(n+1)` seconds. -/

/-- Observable actions of the commit path: a `STATUS` poll, the audio cues,
`SAVE_CONFIG`, `REMOVE_NETWORK`, the `start_ap` recovery call, the `udhcpc`
run, and `std::process::exit(code)`. -/
inductive CAct
  | cmdStatus
  | audioFailed
  | audioSuccess
  | saveConfig
  | removeNetwork
  | startAp
  | runDhcpClient
  | processExit (code : Nat)
  deriving Repr, DecidableEq

/-- The `wpa_state` extraction of `connect` (`commands.rs` lines 313-321):
scan the reply's lines, `split_once('=')` each, and take the value of the
first line whose key is `wpa_state`; default is the empty string. -/
def findWpaState : List (List Char) → List Char
  | [] => []
  | l :: t =>
    match splitOnceEq l with
    | some (k, v) => if k = "wpa_state".data then v else findWpaState t
    | none => findWpaState t

/-- The polling loop of `connect` (`commands.rs` lines 289-387), starting at
iteration `n`.  `status m` is the text the `STATUS` command returns at poll
`m` (`none` models a failed `send_cmd`, which the source logs and retries).
`uc` is `ap_config.wpa_update_config`.  Returns the list of observable
actions in order and the function's return value; the success branch ends
in `std::process::exit(0)` and never returns.  Timings: the `elapsed() >
30s` timeout check at the top of iteration `n` sees `2*n` seconds; the
5-second grace check for `DISCONNECTED`-like states happens after the
sleep and sees `2*(n+1)` seconds.  The first argument is recursion fuel:
the timeout check stops the loop at `n = 16`, so fuel `17 - n` suffices
and the fuel-exhausted branch is unreachable from `connect_poll`
(`connectAux_fuel_eq` below). -/
def connectAux (status : Nat → Option (List Char)) (uc : Bool) :
    Nat → Nat → List CAct × Except String Unit
  | 0, _ => ([], .error "Connection timed out")
  | f+1, n =>
    if 2 * n > 30 then
      ([.audioFailed, .removeNetwork, .startAp], .error "Connection timed out")
    else
      match status n with
      | none =>
        let r := connectAux status uc f (n + 1)
        (.cmdStatus :: r.1, r.2)
      | some reply =>
        let st := findWpaState (rustLines reply)
        if st = "COMPLETED".data then
          (.cmdStatus ::
            ((if uc then [CAct.saveConfig] else []) ++
              [.audioSuccess, .runDhcpClient, .processExit 0]), .ok ())
        else if st = "ASSOCIATING".data ∨ st = "ASSOCIATED".data ∨
            st = "4WAY_HANDSHAKE".data ∨ st = "GROUP_HANDSHAKE".data then
          let r := connectAux status uc f (n + 1)
          (.cmdStatus :: r.1, r.2)
        else if st = "SCANNING".data then
          let r := connectAux status uc f (n + 1)
          (.cmdStatus :: r.1, r.2)
        else if st = "DISCONNECTED".data ∨ st = "INACTIVE".data ∨
            st = "INTERFACE_DISABLED".data then
          if 2 * (n + 1) < 5 then
            let r := connectAux status uc f (n + 1)
            (.cmdStatus :: r.1, r.2)
          else
            ([.cmdStatus, .audioFailed, .removeNetwork, .startAp],
              .error "Connection failed")
        else
          let r := connectAux status uc f (n + 1)
          (.cmdStatus :: r.1, r.2)

/-- The polling phase of `connect`, from iteration 0 (the pre-commit
commands `ADD_NETWORK`/`SET_NETWORK`/`ENABLE_NETWORK` having succeeded). -/
def connect_poll (status : Nat → Option (List Char)) (uc : Bool) :
    List CAct × Except String Unit :=
  connectAux status uc 17 0

/-- The background task spawned by `api_connect_tdm` (`web_server.rs` lines
83-98): run `connect`; if it returns an error, log it and call
`std::process::exit(1)`. -/
def commit_task (status : Nat → Option (List Char)) (uc : Bool) : List CAct :=
  match connect_poll status uc with
  | (tr, .ok _) => tr
  | (tr, .error _) => tr ++ [.processExit 1]

/-- Minimal JSON values, enough for the handler's response bodies. -/
inductive Json
  | str (s : String)
  | num (n : Int)
  | arr (elems : List Json)
  | obj (fields : List (String × Json))
  deriving Repr

/-- An HTTP response: status code and JSON body. -/
structure HttpResponse where
  status : Nat
  body : Json
  deriving Repr

/-- The `/api/connect` request body (`structs.rs`). -/
structure ConnectionRequest where
  ssid : String
  password : String
  deriving Repr, DecidableEq

/-- What `api_connect_tdm` produces: the detached background task (with the
request it will commit) and the HTTP response returned immediately. -/
structure ConnectHandlerOut where
  requested : ConnectionRequest
  spawnedTask : List CAct
  response : HttpResponse
  deriving Repr

/-- The response body of `api_connect_tdm` (`web_server.rs` lines 102-109). -/
def connectSuccessBody : Json :=
  .obj [("status", .str "success"),
        ("message", .str "Connection request received. Device is now switching networks.")]

/-- `api_connect_tdm` (`web_server.rs` lines 73-110): spawn the commit as a
background task and immediately return `200` with the fixed success body.
The commit's eventual behaviour (`status`, `uc`) only flows into the
spawned task, never into the response. -/
def api_connect_tdm (payload : ConnectionRequest)
    (status : Nat → Option (List Char)) (uc : Bool) : ConnectHandlerOut :=
  { requested := payload
    spawnedTask := commit_task status uc
    response := { status := 200, body := connectSuccessBody } }

/-! ## AP-lifecycle state (`commands.rs` lines 77-253) -/

/-- The backend state the AP lifecycle touches: whether the owned `dnsmasq`
child is alive (`self.dnsmasq` holds `Some`), and the recorded AP network
id (`self.ap_net_id`). -/
structure ApState where
  dhcpAlive : Bool
  apNetId : Option Nat
  deriving Repr, DecidableEq

/-- The primitive state updates performed by `start_ap` / `stop_ap`, in
source order: `stop_ap` takes and kills the `dnsmasq` child (line 217-219)
then takes `ap_net_id` and sets it to `None` (lines 223-228);
`start_ap_internal` records `ap_net_id` (lines 207-208); `start_ap` then
spawns `dnsmasq` and stores the child (lines 106-115). -/
inductive ApAct
  | killChild
  | clearNetId
  | setNetId (nid : Nat)
  | spawnChild
  deriving Repr, DecidableEq

/-- Apply one primitive update. -/
def applyAct (s : ApState) : ApAct → ApState
  | .killChild => { s with dhcpAlive := false }
  | .clearNetId => { s with apNetId := none }
  | .setNetId nid => { s with apNetId := some nid }
  | .spawnChild => { s with dhcpAlive := true }

/-- The state updates of `stop_ap` in source order: kill the child first,
then clear `ap_net_id`. -/
def stop_ap_acts : List ApAct := [.killChild, .clearNetId]

/-- The state updates of `start_ap` in source order: the initial idempotent
`stop_ap` (line 79), then `start_ap_internal` records the network id
(line 208), then the `dnsmasq` child is spawned (line 115). -/
def start_ap_acts (nid : Nat) : List ApAct :=
  stop_ap_acts ++ [.setNetId nid, .spawnChild]

/-- Every state visited while executing a sequence of updates, including
the initial and final state. -/
def statesAlong (s : ApState) : List ApAct → List ApState
  | [] => [s]
  | a :: t => s :: statesAlong (applyAct s a) t

/-- The exclusivity invariant: the DHCP child is never alive while
`ap_net_id` is unset. -/
def apInv (s : ApState) : Bool := !s.dhcpAlive || s.apNetId.isSome

/-- Outcome of `ip addr del` inside `stop_ap` (lines 235-249): success, a
failure whose stderr contains `Cannot assign requested address` (ignored),
or any other failure (turned into an error return). -/
inductive IpDelRes
  | ok
  | failCannotAssign
  | failOther
  deriving Repr, DecidableEq

/-- Observable outcome of one `stop_ap` call: the backend state afterwards,
whether a `REMOVE_NETWORK` command was sent, and the returned value. -/
structure StopApOut where
  state : ApState
  sentRemoveNetwork : Bool
  result : Except String Unit
  deriving Repr, DecidableEq

/-- `stop_ap` (`commands.rs` lines 215-253) as a function of the starting
state and the outcomes of the external commands.  The `dnsmasq` child is
taken and killed unconditionally; `ap_net_id` is taken and set to `None`
before `REMOVE_NETWORK` is sent (only if an id was recorded), and the
command's outcome `_removeNetOk` is ignored (`let _ = ...`, line 230);
finally `ip addr del` runs and only a failure other than
`Cannot assign requested address` is returned as an error. -/
def stop_ap_model (s : ApState) (_removeNetOk : Bool) (ipDel : IpDelRes) : StopApOut :=
  let s1 : ApState := { s with dhcpAlive := false }
  let maybeId := s1.apNetId
  let s2 : ApState := { s1 with apNetId := none }
  let res : Except String Unit :=
    match ipDel with
    | .ok => .ok ()
    | .failCannotAssign => .ok ()
    | .failOther => .error "Failed to clean IP"
  ⟨s2, maybeId.isSome, res⟩

/-- A poll result that makes the `connect` loop neither succeed nor enter
the `DISCONNECTED | INACTIVE | INTERFACE_DISABLED` arm: a failed `STATUS`
command, or any `wpa_state` other than `COMPLETED` and the three
terminal-bad states. -/
def pollContinues (o : Option (List Char)) : Bool :=
  match o with
  | none => true
  | some r =>
    let st := findWpaState (rustLines r)
    if st = "COMPLETED".data then false
    else if st = "DISCONNECTED".data ∨ st = "INACTIVE".data ∨
        st = "INTERFACE_DISABLED".data then false
    else true

/-! ## Fuel-sufficiency lemmas

The fuel-exhausted branches of `unescapeAux`, `setupLoopAux` and
`connectAux` are unreachable from their entry points: the lemmas below show
that any fuel at least as large as the entry fuel computes the same value,
so the entry points compute the source's (terminating) loops exactly. -/

/-! ## Helper lemmas -/

theorem unescapeAux_fuel2 (g1 : Nat) (l : List Nat) : l.length ≤ g1 → ∀ g2, l.length ≤ g2 →
    unescapeAux g1 l = unescapeAux g2 l := by
  induction g1, l using unescapeAux.induct with
  | case1 x =>
    intro h1 g2 h2
    have hx : x = [] := List.eq_nil_of_length_eq_zero (Nat.le_zero.mp h1)
    subst hx; cases g2 <;> rfl
  | case2 t ht => intro h1 g2 h2; cases t <;> cases g2 <;> rfl
  | case3 f =>
    intro h1 g2 h2
    cases g2 with
    | zero => simp at h2
    | succ g2 => rfl
  | case4 f c hc h1 h2 rest3 v1 v2 hv2 hv1 ih =>
    intro hlen g2 hlen2
    cases g2 with
    | zero => simp at hlen2
    | succ g2 =>
      simp at hlen hlen2
      have ihx := ih (by omega) g2 (by omega)
      simp [unescapeAux, hc, hv1, hv2, ihx]
  | case5 f c hc h1 h2 rest3 hbad ih =>
    intro hlen g2 hlen2
    cases g2 with
    | zero => simp at hlen2
    | succ g2 =>
      simp at hlen hlen2
      have ihx := ih (by simp; omega) g2 (by simp; omega)
      rcases hx1 : hexVal h1 with _ | v1 <;> rcases hx2 : hexVal h2 with _ | v2
      · simp [unescapeAux, hc, hx1, hx2, ihx]
      · simp [unescapeAux, hc, hx1, hx2, ihx]
      · simp [unescapeAux, hc, hx1, hx2, ihx]
      · exact (hbad v1 v2 hx1 hx2).elim
  | case6 f c rest2 hc hshort ih =>
    intro hlen g2 hlen2
    cases g2 with
    | zero => simp at hlen2
    | succ g2 =>
      simp at hlen hlen2
      have ihx := ih (by simp; omega) g2 (by simp; omega)
      rcases rest2 with _ | ⟨d1, _ | ⟨d2, dt⟩⟩
      · simp [unescapeAux, hc, ihx]
      · simp [unescapeAux, hc, ihx]
      · exact (hshort d1 d2 dt rfl).elim
  | case7 f rest2 hne ih =>
    intro hlen g2 hlen2
    cases g2 with
    | zero => simp at hlen2
    | succ g2 =>
      simp at hlen hlen2
      have ihx := ih (by omega) g2 (by omega)
      simp [unescapeAux, hne, ihx]
  | case8 f c rest2 hc hc92 ih =>
    intro hlen g2 hlen2
    cases g2 with
    | zero => simp at hlen2
    | succ g2 =>
      simp at hlen hlen2
      have ihx := ih (by omega) g2 (by omega)
      simp [unescapeAux, hc, hc92, ihx]
  | case9 f b rest hb ih =>
    intro hlen g2 hlen2
    cases g2 with
    | zero => simp at hlen2
    | succ g2 =>
      simp at hlen hlen2
      have ihx := ih (by omega) g2 (by omega)
      simp [unescapeAux, hb, ihx]

theorem unescapeAux_fuel_eq (g : Nat) (l : List Nat) (h : l.length ≤ g) :
    unescapeAux g l = unescapeBytes l :=
  unescapeAux_fuel2 g l h l.length (le_refl _)

theorem setupLoopAux_fuel2 (scans : Nat → ScanRes) (apRes : Except Unit Unit) :
    ∀ f1 rc, rc ≤ 2 → 3 - rc ≤ f1 → ∀ f2, 3 - rc ≤ f2 →
    setupLoopAux scans apRes f1 rc = setupLoopAux scans apRes f2 rc := by
  intro f1
  induction f1 with
  | zero => intro rc hrc h1 f2 h2; omega
  | succ f1 ih =>
    intro rc hrc h1 f2 h2
    cases f2 with
    | zero => omega
    | succ f2 =>
      simp only [setupLoopAux]
      cases hs : scans rc with
      | err => rfl
      | ok nets =>
        cases nets with
        | nil =>
          by_cases h3 : rc + 1 ≥ 3
          · simp [h3]
          · simp only [if_neg h3]
            exact ih (rc + 1) (by omega) (by omega) f2 (by omega)
        | cons n rest => rfl

theorem connectAux_fuel2 (status : Nat → Option (List Char)) (uc : Bool) :
    ∀ f1 n, n ≤ 16 → 17 - n ≤ f1 → ∀ f2, 17 - n ≤ f2 →
    connectAux status uc f1 n = connectAux status uc f2 n := by
  intro f1
  induction f1 with
  | zero => intro n hn h1 f2 h2; omega
  | succ f1 ih =>
    intro n hn h1 f2 h2
    cases f2 with
    | zero => omega
    | succ f2 =>
      simp only [connectAux]
      by_cases h30 : 2 * n > 30
      · simp [h30]
      · simp only [if_neg h30]
        have ihx := ih (n + 1) (by omega) (by omega) f2 (by omega)
        cases hs : status n with
        | none => simp [ihx]
        | some reply => simp [ihx]

theorem scanFold_eq (l : List (List Char)) : ∀ acc, scanFold l acc = acc ++ l.filterMap parseRowL := by
  induction l with
  | nil => intro acc; simp [scanFold]
  | cons x t ih =>
    intro acc
    cases h : parseRowL x with
    | none => simp [scanFold, h, ih]
    | some n => simp [scanFold, h, ih]


theorem connectAux_err_spec (status : Nat → Option (List Char)) (uc : Bool) :
    ∀ f n, n ≤ 16 → f = 17 - n → ∀ e,
    (connectAux status uc f n).2 = .error e →
    CAct.startAp ∈ (connectAux status uc f n).1 ∧
    CAct.processExit 0 ∉ (connectAux status uc f n).1 := by
  intro f
  induction f with
  | zero => intro n hn hf e he; omega
  | succ f ih =>
    intro n hn hf e he
    by_cases h30 : 2 * n > 30
    · simp [connectAux, h30] at he ⊢
    · have hrec := ih (n + 1) (by omega) (by omega) e
      simp only [connectAux, if_neg h30] at he ⊢
      cases hs : status n with
      | none =>
        rw [hs] at he
        dsimp only at he ⊢
        simp only [List.mem_cons] at *
        rcases hrec he with ⟨h1, h2⟩
        exact ⟨Or.inr h1, by simp [h2]⟩
      | some reply =>
        rw [hs] at he
        dsimp only at he ⊢
        by_cases hcomp : findWpaState (rustLines reply) = "COMPLETED".data
        · simp [hcomp] at he
        · simp only [if_neg hcomp] at he ⊢
          by_cases hprog : findWpaState (rustLines reply) = "ASSOCIATING".data ∨
              findWpaState (rustLines reply) = "ASSOCIATED".data ∨
              findWpaState (rustLines reply) = "4WAY_HANDSHAKE".data ∨
              findWpaState (rustLines reply) = "GROUP_HANDSHAKE".data
          · simp only [if_pos hprog] at he ⊢
            rcases hrec he with ⟨h1, h2⟩
            simp only [List.mem_cons]
            exact ⟨Or.inr h1, by simp [h2]⟩
          · simp only [if_neg hprog] at he ⊢
            by_cases hscan : findWpaState (rustLines reply) = "SCANNING".data
            · simp only [if_pos hscan] at he ⊢
              rcases hrec he with ⟨h1, h2⟩
              simp only [List.mem_cons]
              exact ⟨Or.inr h1, by simp [h2]⟩
            · simp only [if_neg hscan] at he ⊢
              by_cases hdisc : findWpaState (rustLines reply) = "DISCONNECTED".data ∨
                  findWpaState (rustLines reply) = "INACTIVE".data ∨
                  findWpaState (rustLines reply) = "INTERFACE_DISABLED".data
              · simp only [if_pos hdisc] at he ⊢
                by_cases hgrace : 2 * (n + 1) < 5
                · simp only [if_pos hgrace] at he ⊢
                  rcases hrec he with ⟨h1, h2⟩
                  simp only [List.mem_cons]
                  exact ⟨Or.inr h1, by simp [h2]⟩
                · simp only [if_neg hgrace] at he ⊢
                  simp
              · simp only [if_neg hdisc] at he ⊢
                rcases hrec he with ⟨h1, h2⟩
                simp only [List.mem_cons]
                exact ⟨Or.inr h1, by simp [h2]⟩

theorem connectAux_timeout_spec (status : Nat → Option (List Char)) (uc : Bool)
    (hall : ∀ m, pollContinues (status m) = true) :
    ∀ f n, n ≤ 16 → f = 17 - n →
    connectAux status uc f n =
      (List.replicate (16 - n) .cmdStatus ++ [.audioFailed, .removeNetwork, .startAp],
        .error "Connection timed out") := by
  intro f
  induction f with
  | zero => intro n hn hf; omega
  | succ f ih =>
    intro n hn hf
    by_cases h30 : 2 * n > 30
    · have h16 : n = 16 := by omega
      subst h16
      simp [connectAux, h30]
    · have hrepl : 16 - n = (16 - (n + 1)) + 1 := by omega
      have ihx := ih (n + 1) (by omega) (by omega)
      simp only [connectAux, if_neg h30]
      cases hs : status n with
      | none =>
        simp [ihx, hrepl, List.replicate_succ]
      | some reply =>
        have hpc := hall n
        rw [hs] at hpc
        simp only [pollContinues] at hpc
        by_cases hcomp : findWpaState (rustLines reply) = "COMPLETED".data
        · simp [hcomp] at hpc
        · by_cases hdisc : findWpaState (rustLines reply) = "DISCONNECTED".data ∨
              findWpaState (rustLines reply) = "INACTIVE".data ∨
              findWpaState (rustLines reply) = "INTERFACE_DISABLED".data
          · rw [if_neg hcomp, if_pos hdisc] at hpc
            simp at hpc
          · simp only [if_neg hcomp, if_neg hdisc]
            by_cases hprog : findWpaState (rustLines reply) = "ASSOCIATING".data ∨
                findWpaState (rustLines reply) = "ASSOCIATED".data ∨
                findWpaState (rustLines reply) = "4WAY_HANDSHAKE".data ∨
                findWpaState (rustLines reply) = "GROUP_HANDSHAKE".data
            · simp only [if_pos hprog, ihx, hrepl, List.replicate_succ]
              simp
            · simp only [if_neg hprog]
              by_cases hscan : findWpaState (rustLines reply) = "SCANNING".data
              · simp only [if_pos hscan, ihx, hrepl, List.replicate_succ]
                simp
              · simp only [if_neg hscan, ihx, hrepl, List.replicate_succ]
                simp


/-! ## Claim theorems -/

/-- C5: for every parsed scan row the signal percent equals
`(clamp(signal_dbm, -100, -50) + 100) * 2`; it is 0 for every dBm ≤ −100,
100 for every dBm ≥ −50, monotone nondecreasing in between, always lies in
`[0, 100]`, and −75 dBm maps to 50, −110 dBm to 0, 0 dBm to 100. -/
theorem signal_percent_spec (d d1 d2 : Int) (h : d1 ≤ d2) :
    signal_percent d = (rustClamp d (-100) (-50) + 100) * 2 ∧
    (d ≤ -100 → signal_percent d = 0) ∧
    (-50 ≤ d → signal_percent d = 100) ∧
    signal_percent d1 ≤ signal_percent d2 ∧
    0 ≤ signal_percent d ∧ signal_percent d ≤ 100 ∧
    signal_percent (-75) = 50 ∧ signal_percent (-110) = 0 ∧ signal_percent 0 = 100 ∧
    (∀ bssid freq sig flags ssid rest net,
      parseFields (bssid :: freq :: sig :: flags :: ssid :: rest) = some net →
      net.signal = signal_percent ((parseI16 sig).getD (-100))) := by
  refine ⟨rfl, ?_, ?_, ?_, ?_, ?_, by decide, by decide, by decide, ?_⟩
  · intro hd; simp only [signal_percent, rustClamp]; omega
  · intro hd; simp only [signal_percent, rustClamp]; omega
  · simp only [signal_percent, rustClamp]; omega
  · simp only [signal_percent, rustClamp]; omega
  · simp only [signal_percent, rustClamp]; omega
  · intro bssid freq sig flags ssid rest net hp
    by_cases hx : utf8Decode (unescapeBytes (strBytes ssid)) = []
    · simp [parseFields, hx] at hp
    · simp only [parseFields, if_neg hx] at hp
      rw [← Option.some.inj hp]

/-- C5 witness: the monotonicity part at −80 ≤ −60 dBm. -/
theorem signal_percent_spec_witness :
    (-80 : Int) ≤ -60 ∧ signal_percent (-80) ≤ signal_percent (-60) :=
  ⟨by decide, (signal_percent_spec (-60) (-80) (-60) (by decide)).2.2.2.1⟩

/-- C2: every `POST /api/connect` whose body deserializes spawns the commit
as a detached background task and immediately returns HTTP 200 with a JSON
body whose `status` field is `success`; the response is identical whatever
the commit's eventual outcome. -/
theorem api_connect_fire_and_forget (payload : ConnectionRequest)
    (status status2 : Nat → Option (List Char)) (uc uc2 : Bool) :
    (api_connect_tdm payload status uc).response.status = 200 ∧
    (api_connect_tdm payload status uc).response.body =
      Json.obj [("status", Json.str "success"),
        ("message", Json.str "Connection request received. Device is now switching networks.")] ∧
    (api_connect_tdm payload status uc).spawnedTask = commit_task status uc ∧
    (api_connect_tdm payload status uc).requested = payload ∧
    (api_connect_tdm payload status uc).response = (api_connect_tdm payload status2 uc2).response :=
  ⟨rfl, rfl, rfl, rfl, rfl⟩

/-- C8: starting from any state satisfying the exclusivity invariant, every
intermediate state of a `start_ap` bring-up followed by a `stop_ap`
tear-down satisfies it: the DHCP child is never alive while `ap_network_id`
is unset, because `start_ap` records the id before spawning `dnsmasq` and
`stop_ap` kills `dnsmasq` before clearing the id. -/
theorem ap_exclusivity_invariant (s : ApState) (nid : Nat) (h : apInv s = true) :
    ∀ s2 ∈ statesAlong s (start_ap_acts nid ++ stop_ap_acts), apInv s2 = true := by
  intro s2 hs2
  simp only [start_ap_acts, stop_ap_acts, List.cons_append, List.nil_append,
    statesAlong, applyAct, List.mem_cons, List.mem_singleton] at hs2
  rcases hs2 with rfl | rfl | rfl | rfl | rfl | rfl | rfl | hs2
  · exact h
  · simp [apInv]
  · simp [apInv]
  · simp [apInv]
  · simp [apInv]
  · simp [apInv]
  · simp [apInv]
  · simp at hs2

/-- C8 witness: the invariant holds along a concrete bring-up/tear-down. -/
theorem ap_exclusivity_invariant_witness :
    apInv ⟨false, none⟩ = true ∧
    ∀ s2 ∈ statesAlong ⟨false, none⟩ (start_ap_acts 7 ++ stop_ap_acts), apInv s2 = true :=
  ⟨by decide, ap_exclusivity_invariant ⟨false, none⟩ 7 (by decide)⟩

/-- C10: `stop_ap` unconditionally clears the backend's AP state: after any
call — whatever the starting state, the ignored `REMOVE_NETWORK` outcome,
and the `ip addr del` outcome, including the failing one — the child is
gone and `ap_net_id` is `None`; `REMOVE_NETWORK` is sent exactly when an id
was recorded, and an immediately repeated call sends none. -/
theorem stop_ap_clears_state (s : ApState) (r1 r2 : Bool) (i j : IpDelRes) :
    (stop_ap_model s r1 i).state = ⟨false, none⟩ ∧
    (stop_ap_model s r1 i).sentRemoveNetwork = s.apNetId.isSome ∧
    stop_ap_model s r1 i = stop_ap_model s r2 i ∧
    (stop_ap_model s r1 .failOther).result = .error "Failed to clean IP" ∧
    (stop_ap_model s r1 .failOther).state = ⟨false, none⟩ ∧
    (stop_ap_model (stop_ap_model s r1 i).state r2 j).sentRemoveNetwork = false :=
  ⟨rfl, rfl, rfl, rfl, rfl, rfl⟩



/-- C6 counterexample: the claim "every escape sequence other than a
well-formed `\xHH` keeps the backslash and the following character" fails
on the input `\\` (bytes `[92, 92]`): the code collapses it to a single
backslash `[92]`, not `[92, 92]`. -/
theorem unescape_backslash_counterexample :
    unescapeBytes [92, 92] = [92] ∧ unescapeBytes [92, 92] ≠ [92, 92] := by decide

/-- C6 (amended): the unescape helper rewrites every well-formed `\xHH` (or
`\XHH`) escape to the single raw byte `16*H1 + H2`, collapses `\\` to one
backslash, and keeps every other escape sequence literal (a malformed
`\x...` keeps the backslash and re-processes from the `x`; a trailing
backslash is kept); the result is lossily UTF-8-decoded into
`Network.ssid`, and the scan-row SSID field `caf\xc3\xa9` decodes to
`"café"`. -/
theorem unescape_wpa_ssid_spec (x h1 h2 v1 v2 c b : Nat) (rest : List Nat)
    (hx : x = 120 ∨ x = 88) (hv1 : hexVal h1 = some v1) (hv2 : hexVal h2 = some v2)
    (hc1 : c ≠ 120) (hc2 : c ≠ 88) (hc3 : c ≠ 92) (hb : b ≠ 92) :
    unescapeBytes (92 :: x :: h1 :: h2 :: rest) = (16 * v1 + v2) :: unescapeBytes rest ∧
    (∀ g1 g2, hexVal g1 = none ∨ hexVal g2 = none →
      unescapeBytes (92 :: x :: g1 :: g2 :: rest) = 92 :: unescapeBytes (x :: g1 :: g2 :: rest)) ∧
    unescapeBytes (92 :: 92 :: rest) = 92 :: unescapeBytes rest ∧
    unescapeBytes (92 :: c :: rest) = 92 :: c :: unescapeBytes rest ∧
    unescapeBytes (b :: rest) = b :: unescapeBytes rest ∧
    unescapeBytes [92] = [92] ∧
    utf8Decode (unescapeBytes (strBytes "caf\\xc3\\xa9".data)) = "café".data.map Char.toNat ∧
    parseFields ("aa:bb:cc:dd:ee:ff".data :: "2412".data :: "-50".data ::
        "[WPA2-PSK-CCMP][ESS]".data :: "caf\\xc3\\xa9".data :: []) =
      some ⟨"café".data.map Char.toNat, 100, "WPA2"⟩ := by
  refine ⟨?_, ?_, ?_, ?_, ?_, by decide, by decide, by decide⟩
  · rcases hx with rfl | rfl <;> simp [unescapeBytes, unescapeAux, hv1, hv2] <;>
      exact unescapeAux_fuel2 _ _ (by omega) _ (by omega)
  · intro g1 g2 hg
    rcases hx with rfl | rfl <;>
      rcases hg1 : hexVal g1 with _ | w1 <;> rcases hg2 : hexVal g2 with _ | w2 <;>
      first
        | (simp [unescapeBytes, unescapeAux, hg1, hg2] <;>
            exact unescapeAux_fuel2 _ _ (by omega) _ (by omega))
        | (simp [hg1, hg2] at hg)
  · simp [unescapeBytes, unescapeAux] <;>
      exact unescapeAux_fuel2 _ _ (by omega) _ (by omega)
  · simp [unescapeBytes, unescapeAux, hc1, hc2, hc3] <;>
      exact unescapeAux_fuel2 _ _ (by omega) _ (by omega)
  · simp [unescapeBytes, unescapeAux, hb] <;>
      exact unescapeAux_fuel2 _ _ (by omega) _ (by omega)

/-- C6 witness: a concrete `\xHH` escape (`\x41` → byte 65, i.e. `A`),
through the general hex clause. -/
theorem unescape_wpa_ssid_spec_witness :
    unescapeBytes [92, 120, 52, 49, 99] = 65 :: unescapeBytes [99] :=
  (unescape_wpa_ssid_spec 120 52 49 4 1 97 97 [99] (Or.inl rfl) (by decide) (by decide)
    (by decide) (by decide) (by decide) (by decide)).1



/-- C3: `setup_and_scan` makes at most 3 scan attempts; a non-empty attempt
result is returned exactly as scanned (when `start_ap` succeeds) and the
AP bring-up runs afterwards; if all three attempts return an empty list,
the loop calls `stop_ap` (releasing the DHCP child and AP network id) and
returns the failure, without bringing the AP up. -/
theorem setup_and_scan_retry_spec (scans : Nat → ScanRes) (apRes : Except Unit Unit)
    (i : Nat) (l : List Network) (hi : i ≤ 2)
    (hprev : ∀ j, j < i → scans j = .ok []) (hl : scans i = .ok l) (hne : l ≠ []) :
    (∀ sc ar, (setup_and_scan sc ar).attempts ≤ 3) ∧
    (setup_and_scan scans apRes).startedAp = true ∧
    (setup_and_scan scans apRes).stoppedAp = false ∧
    (setup_and_scan scans apRes).attempts = i + 1 ∧
    (apRes = .ok () → (setup_and_scan scans apRes).result = .ok l) ∧
    (∀ sc ar, sc 0 = .ok [] → sc 1 = .ok [] → sc 2 = .ok [] →
      setup_and_scan sc ar = ⟨.error .emptyAfterRetries, 3, true, false⟩) := by
  have hbound : ∀ sc ar, (setup_and_scan sc ar).attempts ≤ 3 := by
    intro sc ar
    cases h0 : sc 0 with
    | err => simp [setup_and_scan, setupLoopAux, h0]
    | ok nets0 =>
      cases nets0 with
      | cons a b => cases ar <;> simp [setup_and_scan, setupLoopAux, h0]
      | nil =>
        cases h1 : sc 1 with
        | err => simp [setup_and_scan, setupLoopAux, h0, h1]
        | ok nets1 =>
          cases nets1 with
          | cons a b => cases ar <;> simp [setup_and_scan, setupLoopAux, h0, h1]
          | nil =>
            cases h2 : sc 2 with
            | err => simp [setup_and_scan, setupLoopAux, h0, h1, h2]
            | ok nets2 =>
              cases nets2 with
              | cons a b => cases ar <;> simp [setup_and_scan, setupLoopAux, h0, h1, h2]
              | nil => simp [setup_and_scan, setupLoopAux, h0, h1, h2]
  have hempty : ∀ sc ar, sc 0 = .ok [] → sc 1 = .ok [] → sc 2 = .ok [] →
      setup_and_scan sc ar = ⟨.error .emptyAfterRetries, 3, true, false⟩ := by
    intro sc ar h0 h1 h2
    simp [setup_and_scan, setupLoopAux, h0, h1, h2]
  obtain ⟨n, t, rfl⟩ : ∃ n t, l = n :: t := by
    cases l with
    | nil => exact absurd rfl hne
    | cons a b => exact ⟨a, b, rfl⟩
  cases apRes with
  | ok u =>
    cases u
    have hrun : setup_and_scan scans (.ok ()) = ⟨.ok (n :: t), i + 1, false, true⟩ := by
      match i, hi with
      | 0, _ => simp [setup_and_scan, setupLoopAux, hl]
      | 1, _ => simp [setup_and_scan, setupLoopAux, hprev 0 (by omega), hl]
      | 2, _ => simp [setup_and_scan, setupLoopAux, hprev 0 (by omega), hprev 1 (by omega), hl]
    rw [hrun]
    exact ⟨hbound, rfl, rfl, rfl, fun _ => rfl, hempty⟩
  | error e =>
    have hrun : setup_and_scan scans (.error e) = ⟨.error .apStartFailed, i + 1, false, true⟩ := by
      match i, hi with
      | 0, _ => simp [setup_and_scan, setupLoopAux, hl]
      | 1, _ => simp [setup_and_scan, setupLoopAux, hprev 0 (by omega), hl]
      | 2, _ => simp [setup_and_scan, setupLoopAux, hprev 0 (by omega), hprev 1 (by omega), hl]
    rw [hrun]
    exact ⟨hbound, rfl, rfl, rfl, by simp, hempty⟩

/-- C3 witness: the first two attempts empty, the third one row. -/
theorem setup_and_scan_retry_spec_witness :
    (setup_and_scan (fun i => if i < 2 then .ok [] else .ok [⟨[72], 90, "WPA2"⟩]) (.ok ())).result
      = .ok [⟨[72], 90, "WPA2"⟩] :=
  ((setup_and_scan_retry_spec (fun i => if i < 2 then .ok [] else .ok [⟨[72], 90, "WPA2"⟩])
    (.ok ()) 2 [⟨[72], 90, "WPA2"⟩] (by decide)
    (fun j hj => by interval_cases j <;> rfl) (by decide) (by decide)).2.2.2.2.1) rfl

/-- C4 counterexample: a scan operation Failure on the very first attempt
aborts `setup_and_scan` immediately with one attempt made — it is not
retried up to 3 attempts as the claim states. -/
theorem scan_error_aborts_counterexample :
    setup_and_scan (fun _ => .err) (.ok ()) = ⟨.error .scanInternal, 1, false, false⟩ ∧
    ¬ 2 ≤ (setup_and_scan (fun _ => .err) (.ok ())).attempts := by decide

/-- C4 (amended): only empty scan results are retried (up to 3 attempts); a
scan attempt that fails outright (`scan_internal` returns an error) aborts
`setup_and_scan` immediately via the `?` operator, propagating the error
without further attempts and without the stop_ap cleanup. -/
theorem scan_error_propagates (scans : Nat → ScanRes) (apRes : Except Unit Unit)
    (i : Nat) (hi : i ≤ 2) (hprev : ∀ j, j < i → scans j = .ok []) (herr : scans i = .err) :
    setup_and_scan scans apRes = ⟨.error .scanInternal, i + 1, false, false⟩ := by
  match i, hi with
  | 0, _ => simp [setup_and_scan, setupLoopAux, herr]
  | 1, _ => simp [setup_and_scan, setupLoopAux, hprev 0 (by omega), herr]
  | 2, _ => simp [setup_and_scan, setupLoopAux, hprev 0 (by omega), hprev 1 (by omega), herr]

/-- C4 witness: an error on the second attempt after one empty attempt. -/
theorem scan_error_propagates_witness :
    setup_and_scan (fun i => if i = 0 then .ok [] else .err) (.ok ()) =
      ⟨.error .scanInternal, 2, false, false⟩ :=
  scan_error_propagates (fun i => if i = 0 then .ok [] else .err) (.ok ()) 1 (by decide)
    (fun j hj => by interval_cases j <;> rfl) (by decide)

/-- C9: `parse_scan_results` is total — it returns `Ok` on every input,
with the first line skipped as a header; a line with fewer than 5
tab-separated fields is skipped; a row whose decoded SSID is empty is
discarded; a row whose signal field does not parse as an `i16` is kept
with `signal_dbm` defaulted to −100, hence signal percent 0. -/
theorem parse_scan_results_total_spec (output : String) (ps : List (List Char))
    (bssid freq sig flags ssid : List Char) (rest2 : List (List Char)) :
    (∃ ns, parse_scan_results output = .ok ns ∧
      ns = ((rustLines output.data).drop 1).filterMap parseRowL) ∧
    (ps.length < 5 → parseFields ps = none) ∧
    (utf8Decode (unescapeBytes (strBytes ssid)) = [] →
      parseFields (bssid :: freq :: sig :: flags :: ssid :: rest2) = none) ∧
    (parseI16 sig = none → utf8Decode (unescapeBytes (strBytes ssid)) ≠ [] →
      parseFields (bssid :: freq :: sig :: flags :: ssid :: rest2) =
        some ⟨utf8Decode (unescapeBytes (strBytes ssid)), 0, securityOf flags⟩) := by
  refine ⟨⟨_, rfl, by simpa using scanFold_eq ((rustLines output.data).drop 1) []⟩, ?_, ?_, ?_⟩
  · intro h5
    match ps, h5 with
    | [], _ => rfl
    | [a], _ => rfl
    | [a, b], _ => rfl
    | [a, b, c], _ => rfl
    | [a, b, c, d], _ => rfl
    | a :: b :: c :: d :: e :: t, h5 => exact absurd h5 (by simp)
  · intro hx
    simp [parseFields, hx]
  · intro hsig hne
    simp only [parseFields, hsig, Option.getD_none, if_neg hne]
    have : signal_percent (-100) = 0 := by decide
    rw [this]

/-- C9 witness: a row with unparseable signal field `abc` is kept with
signal percent 0. -/
theorem parse_scan_results_total_spec_witness :
    parseI16 "abc".data = none ∧
    parseFields ("aa".data :: "2412".data :: "abc".data :: "[WPA2]".data :: "Home".data :: []) =
      some ⟨utf8Decode (unescapeBytes (strBytes "Home".data)), 0, securityOf "[WPA2]".data⟩ :=
  ⟨by decide,
    (parse_scan_results_total_spec "" [] "aa".data "2412".data "abc".data "[WPA2]".data
      "Home".data []).2.2.2 (by decide) (by decide)⟩



/-- C1 counterexample: a commit that fails (terminal `DISCONNECTED` past
the 5-second grace) does terminate the process — the spawned task runs
`std::process::exit(1)` — so the same process does not keep serving HTTP. -/
theorem commit_failure_exit_counterexample :
    (connect_poll (fun _ => some "wpa_state=DISCONNECTED".data) false).2 =
      .error "Connection failed" ∧
    commit_task (fun _ => some "wpa_state=DISCONNECTED".data) false =
      [.cmdStatus, .cmdStatus, .cmdStatus, .audioFailed, .removeNetwork, .startAp,
        .processExit 1] ∧
    CAct.processExit 1 ∈ commit_task (fun _ => some "wpa_state=DISCONNECTED".data) false := by
  decide

/-- C1 (amended): for every commit that fails in the polling loop (timeout
or terminal bad state past the grace window), `connect` restores the AP
before returning the error, the error is not surfaced through the already
sent HTTP response, and the success exit `exit(0)` does not run; however
the spawned task then terminates the process with exit status 1, so the
server does not keep running and the user cannot retry against the same
process. -/
theorem commit_failure_restores_ap_then_exits (status : Nat → Option (List Char)) (uc : Bool)
    (e : String) (h : (connect_poll status uc).2 = .error e) :
    CAct.startAp ∈ (connect_poll status uc).1 ∧
    CAct.processExit 0 ∉ (connect_poll status uc).1 ∧
    commit_task status uc = (connect_poll status uc).1 ++ [.processExit 1] := by
  have hspec := connectAux_err_spec status uc 17 0 (by omega) (by omega) e h
  refine ⟨hspec.1, hspec.2, ?_⟩
  unfold commit_task
  rcases hcp : connect_poll status uc with ⟨tr, res⟩
  rw [hcp] at h
  cases res with
  | ok u => simp at h
  | error e2 => simp

/-- C1 witness: the amended claim at a concrete always-`INACTIVE` status
sequence. -/
theorem commit_failure_restores_ap_then_exits_witness :
    CAct.startAp ∈ (connect_poll (fun _ => some "wpa_state=INACTIVE".data) true).1 :=
  (commit_failure_restores_ap_then_exits (fun _ => some "wpa_state=INACTIVE".data) true
    "Connection failed" (by decide)).1

/-- C7: the commit poll loop issues `STATUS` once per 2-second iteration
with a hard 30-second budget and switches on `wpa_state`: `COMPLETED`
takes the success path ending in `exit(0)`; the in-progress states and
`SCANNING` continue; `DISCONNECTED`/`INACTIVE`/`INTERFACE_DISABLED`
continue within the first 5 seconds and fail after; unknown states and
failed `STATUS` commands continue; exceeding the budget fails after
exactly 16 polls. -/
theorem connect_poll_state_machine (status : Nat → Option (List Char)) (uc : Bool)
    (f n : Nat) (reply : List Char) :
    (2 * n ≤ 30 → status n = some reply →
      findWpaState (rustLines reply) = "COMPLETED".data →
      connectAux status uc (f + 1) n =
        (.cmdStatus :: ((if uc then [CAct.saveConfig] else []) ++
          [.audioSuccess, .runDhcpClient, .processExit 0]), .ok ()) ∧
      CAct.processExit 0 ∈ (connectAux status uc (f + 1) n).1) ∧
    (2 * n ≤ 30 → status n = some reply →
      (findWpaState (rustLines reply) = "ASSOCIATING".data ∨
       findWpaState (rustLines reply) = "ASSOCIATED".data ∨
       findWpaState (rustLines reply) = "4WAY_HANDSHAKE".data ∨
       findWpaState (rustLines reply) = "GROUP_HANDSHAKE".data ∨
       findWpaState (rustLines reply) = "SCANNING".data) →
      connectAux status uc (f + 1) n =
        (.cmdStatus :: (connectAux status uc f (n + 1)).1,
          (connectAux status uc f (n + 1)).2)) ∧
    (2 * n ≤ 30 → status n = some reply →
      (findWpaState (rustLines reply) = "DISCONNECTED".data ∨
       findWpaState (rustLines reply) = "INACTIVE".data ∨
       findWpaState (rustLines reply) = "INTERFACE_DISABLED".data) →
      2 * (n + 1) < 5 →
      connectAux status uc (f + 1) n =
        (.cmdStatus :: (connectAux status uc f (n + 1)).1,
          (connectAux status uc f (n + 1)).2)) ∧
    (2 * n ≤ 30 → status n = some reply →
      (findWpaState (rustLines reply) = "DISCONNECTED".data ∨
       findWpaState (rustLines reply) = "INACTIVE".data ∨
       findWpaState (rustLines reply) = "INTERFACE_DISABLED".data) →
      ¬ 2 * (n + 1) < 5 →
      connectAux status uc (f + 1) n =
        ([.cmdStatus, .audioFailed, .removeNetwork, .startAp], .error "Connection failed")) ∧
    (2 * n ≤ 30 → status n = some reply →
      (findWpaState (rustLines reply) ∉ ["COMPLETED".data, "ASSOCIATING".data,
        "ASSOCIATED".data, "4WAY_HANDSHAKE".data, "GROUP_HANDSHAKE".data, "SCANNING".data,
        "DISCONNECTED".data, "INACTIVE".data, "INTERFACE_DISABLED".data]) →
      connectAux status uc (f + 1) n =
        (.cmdStatus :: (connectAux status uc f (n + 1)).1,
          (connectAux status uc f (n + 1)).2)) ∧
    (2 * n ≤ 30 → status n = none →
      connectAux status uc (f + 1) n =
        (.cmdStatus :: (connectAux status uc f (n + 1)).1,
          (connectAux status uc f (n + 1)).2)) ∧
    (2 * n > 30 →
      connectAux status uc (f + 1) n =
        ([.audioFailed, .removeNetwork, .startAp], .error "Connection timed out")) ∧
    ((∀ m, pollContinues (status m) = true) →
      connect_poll status uc =
        (List.replicate 16 .cmdStatus ++ [.audioFailed, .removeNetwork, .startAp],
          .error "Connection timed out")) ∧
    connect_poll status uc = connectAux status uc 17 0 := by
  refine ⟨?_, ?_, ?_, ?_, ?_, ?_, ?_, ?_, rfl⟩
  · intro h30 hs hst
    have heq : connectAux status uc (f + 1) n =
        (.cmdStatus :: ((if uc then [CAct.saveConfig] else []) ++
          [.audioSuccess, .runDhcpClient, .processExit 0]), .ok ()) := by
      simp only [connectAux, if_neg (by omega : ¬ 2 * n > 30), hs]
      rw [if_pos hst]
    refine ⟨heq, ?_⟩
    rw [heq]
    cases uc <;> simp
  · intro h30 hs hst
    simp only [connectAux, if_neg (by omega : ¬ 2 * n > 30), hs]
    rcases hst with h | h | h | h | h <;> rw [h]
    · rw [if_neg (by decide), if_pos (by decide)]
    · rw [if_neg (by decide), if_pos (by decide)]
    · rw [if_neg (by decide), if_pos (by decide)]
    · rw [if_neg (by decide), if_pos (by decide)]
    · rw [if_neg (by decide), if_neg (by decide), if_pos (by decide)]
  · intro h30 hs hst hgrace
    simp only [connectAux, if_neg (by omega : ¬ 2 * n > 30), hs]
    rcases hst with h | h | h <;> rw [h] <;>
      rw [if_neg (by decide), if_neg (by decide), if_neg (by decide),
        if_pos (by decide), if_pos hgrace]
  · intro h30 hs hst hgrace
    simp only [connectAux, if_neg (by omega : ¬ 2 * n > 30), hs]
    rcases hst with h | h | h <;> rw [h] <;>
      rw [if_neg (by decide), if_neg (by decide), if_neg (by decide),
        if_pos (by decide), if_neg hgrace]
  · intro h30 hs hst
    simp only [List.mem_cons, List.mem_singleton, not_or] at hst
    obtain ⟨k1, k2, k3, k4, k5, k6, k7, k8, k9, _⟩ := hst
    simp only [connectAux, if_neg (by omega : ¬ 2 * n > 30), hs]
    rw [if_neg k1, if_neg (by simp [k2, k3, k4, k5]), if_neg k6,
      if_neg (by simp [k7, k8, k9])]
  · intro h30 hs
    simp only [connectAux, if_neg (by omega : ¬ 2 * n > 30), hs]
  · intro h30
    simp [connectAux, h30]
  · intro hall
    simpa using connectAux_timeout_spec status uc hall 17 0 (by omega) (by omega)

/-- C7 witness: a `COMPLETED` poll at the first iteration takes the success
path ending in `exit(0)`. -/
theorem connect_poll_state_machine_witness :
    connectAux (fun _ => some "wpa_state=COMPLETED".data) true 17 0 =
      (.cmdStatus :: ((if true then [CAct.saveConfig] else []) ++
        [.audioSuccess, .runDhcpClient, .processExit 0]), .ok ()) :=
  ((connect_poll_state_machine (fun _ => some "wpa_state=COMPLETED".data) true 16 0
    "wpa_state=COMPLETED".data).1 (by decide) (by decide) (by decide)).1


end Provisioner
